import Mathlib

/-!
Verification of the deluge RPC client (`delugeclient.go`).

The Go source is shallowly embedded below: the rencode wire values become an
inductive `RValue`, the decoded response handling of `Client.Rpc`
(lines 173-210) becomes the pure function `rpcDecode`, the whole of
`Client.Rpc` becomes `GoClient.rpc` over an explicit network-behaviour
oracle recording which I/O steps succeed, and the wrapper methods
(`RemoveTorrent`, `AddTorrentMagnet`, `Close`, `New`) become functions on
that model.  Machine integers are modelled as `Int` with the explicit
wraparound check the source performs.
-/

/-- A generic rencode wire value (the value model of the external
`go-rencode` library): integers, text strings, raw byte strings (carried
here as the text they spell), booleans, the nil placeholder, lists and
dictionaries. -/
inductive RValue where
  | int (i : Int)
  | str (s : String)
  | bytes (s : String)
  | bool (b : Bool)
  | nil
  | list (l : List RValue)
  | dict (entries : List (RValue × RValue))

/-- Go error values as they matter to this client: the distinguished
`ErrAlreadyClosed` value, a scan failure raised by the rencode decoder,
an `errors.New` message, an I/O-layer error, and an `RPCError` value
(whose `remoteMessage` field is kept verbatim). -/
inductive GoError where
  | alreadyClosed
  | scanFailure
  | message (s : String)
  | ioError (s : String)
  | rpcErr (remoteMessage : String)
deriving DecidableEq, Repr

/-- `RPCError` struct: `remoteMessage` is the only field. -/
structure RPCError where
  remoteMessage : String
deriving DecidableEq, Repr

/-- `RPCError.Error()` returns the remote message verbatim. -/
def RPCError.error (e : RPCError) : String := e.remoteMessage

/-- `rpcResponse rpcResponseTypeID = 1`. -/
def rpcResponse : Int := 1
/-- `rpcError rpcResponseTypeID = 2`. -/
def rpcError : Int := 2
/-- `rpcEvent rpcResponseTypeID = 3`. -/
def rpcEvent : Int := 3

/-- `DelugeResponse` struct; absent fields keep their Go zero values. -/
structure DelugeResponse where
  messageType : Int := 0
  requestID : Int := 0
  returnValue : List RValue := []
  exceptionType : String := ""
  exceptionMessage : String := ""
  traceBack : String := ""
  eventName : String := ""
  data : List RValue := []

/-- `DelugeResponse.IsError`: true exactly when the message type is the
error tag. -/
def DelugeResponse.IsError (dr : DelugeResponse) : Bool :=
  dr.messageType == rpcError

/-- A single-quote character as a string (used by the `%s('%s')` format). -/
def singleQuote : String := String.singleton (Char.ofNat 39)

/-- The Go `%T` type name of a wire value held in an `interface{}` slot. -/
def goTypeName : RValue → String
  | RValue.int _ => "int64"
  | RValue.str _ => "string"
  | RValue.bytes _ => "[]uint8"
  | RValue.bool _ => "bool"
  | RValue.nil => "<nil>"
  | RValue.list _ => "rencode.List"
  | RValue.dict _ => "rencode.Dictionary"

/-- `DelugeResponse.String()`: for an error response the composite
`"RPC error <type>('<message>')\n<traceback>"`; for a success response a
description of the return values; otherwise an invalid-type note. -/
def DelugeResponse.toString (dr : DelugeResponse) : String :=
  if dr.messageType = rpcError then
    "RPC error " ++ dr.exceptionType ++ "(" ++ singleQuote ++ dr.exceptionMessage
      ++ singleQuote ++ ")" ++ "\n" ++ dr.traceBack
  else if dr.messageType = rpcResponse then
    let typeStr := dr.returnValue.foldl (fun acc v => acc ++ goTypeName v ++ ", ") ""
    Nat.repr dr.returnValue.length ++ " return values [" ++ typeStr ++ "]"
  else
    "invalid message type: " ++ Int.repr dr.messageType

/-- `respList.Scan(&mt, &resp.requestID)`: the first two wire values must
be integers; otherwise the rencode scan fails. -/
def scanTwoInts : List RValue → Except GoError (Int × Int)
  | RValue.int a :: RValue.int b :: _ => Except.ok (a, b)
  | _ => Except.error GoError.scanFailure

/-- `respList.Scan(&errList)`: the first remaining wire value must be a
list. -/
def scanList : List RValue → Except GoError (List RValue)
  | RValue.list l :: _ => Except.ok l
  | _ => Except.error GoError.scanFailure

/-- Scanning a wire value into a Go `string` target: text strings and raw
byte strings scan; nothing else does. -/
def asText : RValue → Option String
  | RValue.str s => some s
  | RValue.bytes s => some s
  | _ => none

/-- `errList.Scan(&resp.exceptionType, &resp.exceptionMessage, &resp.traceBack)`. -/
def scanThreeStrings : List RValue → Except GoError (String × String × String)
  | a :: b :: c :: _ =>
    match asText a, asText b, asText c with
    | some x, some y, some z => Except.ok (x, y, z)
    | _, _, _ => Except.error GoError.scanFailure
  | _ => Except.error GoError.scanFailure

/-- The response handling of `Client.Rpc` (lines 173-210): scan the first
two envelope elements, verify the echoed request id against the serial,
shift the first two elements off, then classify by message type.  Returns
the Go pair `(*DelugeResponse, error)`. -/
def rpcDecode (serial : Int) (respList : List RValue) :
    Option DelugeResponse × Option GoError :=
  match scanTwoInts respList with
  | Except.error e => (none, some e)
  | Except.ok (mt, reqID) =>
    if reqID ≠ serial then
      (none, some (GoError.message "request/response serial id mismatch"))
    else
      let rest := respList.drop 2
      if mt = rpcResponse then
        ({ messageType := mt, requestID := reqID, returnValue := rest
           : DelugeResponse }, none)
      else if mt = rpcError then
        match scanList rest with
        | Except.error e => (none, some e)
        | Except.ok errList =>
          match scanThreeStrings errList with
          | Except.error e => (none, some e)
          | Except.ok (t, m, tb) =>
            ({ messageType := mt, requestID := reqID, exceptionType := t,
               exceptionMessage := m, traceBack := tb : DelugeResponse }, none)
      else if mt = rpcEvent then
        (none, some (GoError.message "event support not available"))
      else
        (none, some (GoError.message "unknown message type"))

/-- `math.MaxInt64`: the maximum representable signed 64-bit integer. -/
def maxInt64 : Int := 9223372036854775807

/-- `time.Second` in nanoseconds (Go `time.Duration` unit). -/
def timeSecond : Int := 1000000000

/-- `DefaultReadWriteTimeout = time.Second * 30`. -/
def DefaultReadWriteTimeout : Int := timeSecond * 30

/-- `Settings` struct; the logger pointer is abstracted to its nil-ness. -/
structure GoSettings where
  hostname : String := ""
  port : Nat := 0
  login : String := ""
  password : String := ""
  hasLogger : Bool := false
  readWriteTimeout : Int := 0
deriving DecidableEq, Repr

/-- The TLS connection, abstracted to the outcome its `Close()` would
report (an I/O-layer error message, or no error). -/
structure GoConn where
  closeErr : Option String := none
deriving DecidableEq, Repr

/-- `Client` struct: settings, optional connection, serial counter and
privilege class id. -/
structure GoClient where
  settings : GoSettings := {}
  conn : Option GoConn := none
  serial : Int := 0
  classID : Int := 0
deriving DecidableEq, Repr

/-- The serial-counter step at the top of `Client.Rpc`:
`c.serial++; if c.serial == math.MaxInt64 { c.serial = 1 }` — the
incremented counter, replaced by 1 when it equals `math.MaxInt64`. -/
def nextSerial (s : Int) : Int :=
  if s + 1 = maxInt64 then 1 else s + 1

/-- The serial counter after `n` calls on a client whose counter started
at the Go zero value `0`. -/
def serialIter : Nat → Int
  | 0 => 0
  | n + 1 => nextSerial (serialIter n)

/-- The observable I/O steps `Client.Rpc` performs, in order of
appearance in the source. -/
inductive RpcAction where
  | encodePayload
  | flushZlib
  | writeConn
  | resetDeadline (deadline : Int)
  | openZlibReader
  | decodeResponse
deriving DecidableEq, Repr

/-- `Client.resetTimeout`: `conn.SetDeadline(time.Now().Add(timeout))`;
the deadline value set, given the current time. -/
def GoClient.resetTimeout (c : GoClient) (now : Int) : Int :=
  now + c.settings.readWriteTimeout

/-- Behaviour of the network and codec layers during one `Rpc` call: for
each fallible I/O step, the error it reports (if any), plus the decoded
response list the rencode decoder would produce and the current time. -/
structure NetBehavior where
  encodeErr : Option GoError := none
  flushErr : Option GoError := none
  writeErr : Option GoError := none
  setDeadlineErr : Option GoError := none
  zlibReaderErr : Option GoError := none
  scanErr : Option GoError := none
  respList : List RValue := []
  now : Int := 0

/-- The outcome of one `Client.Rpc` call: the updated client, the payload
written to the wire, the Go return pair, and the trace of I/O steps
attempted. -/
structure RpcOutcome where
  client : GoClient
  sent : RValue
  resp : Option DelugeResponse
  err : Option GoError
  trace : List RpcAction

/-- `Client.Rpc`: bump the serial counter (with wraparound), build the
double-wrapped call envelope, then encode, flush, write, reset the
deadline, open the decompressing reader, scan one response list, and hand
the decoded list to the response-classification stage (`rpcDecode`).
Every failing step returns a nil response with that step's error. -/
def GoClient.rpc (c : GoClient) (net : NetBehavior) (methodName : String)
    (args : List RValue) (kwargs : List (RValue × RValue)) : RpcOutcome :=
  let serial := nextSerial c.serial
  let c1 := { c with serial := serial }
  let payload := RValue.list [RValue.list
    [RValue.int serial, RValue.str methodName, RValue.list args, RValue.dict kwargs]]
  let tr0 := [RpcAction.encodePayload]
  match net.encodeErr with
  | some e => ⟨c1, payload, none, some e, tr0⟩
  | none =>
    let tr1 := tr0 ++ [RpcAction.flushZlib]
    match net.flushErr with
    | some e => ⟨c1, payload, none, some e, tr1⟩
    | none =>
      let tr2 := tr1 ++ [RpcAction.writeConn]
      match net.writeErr with
      | some e => ⟨c1, payload, none, some e, tr2⟩
      | none =>
        let tr3 := tr2 ++ [RpcAction.resetDeadline (c1.resetTimeout net.now)]
        match net.setDeadlineErr with
        | some e => ⟨c1, payload, none, some e, tr3⟩
        | none =>
          let tr4 := tr3 ++ [RpcAction.openZlibReader]
          match net.zlibReaderErr with
          | some e => ⟨c1, payload, none, some e, tr4⟩
          | none =>
            let tr5 := tr4 ++ [RpcAction.decodeResponse]
            match net.scanErr with
            | some e => ⟨c1, payload, none, some e, tr5⟩
            | none =>
              let r := rpcDecode serial net.respList
              ⟨c1, payload, r.1, r.2, tr5⟩

/-- The full I/O trace of an `Rpc` call in which every step succeeds,
given the deadline value set by the reset step. -/
def fullRpcTrace (deadline : Int) : List RpcAction :=
  [RpcAction.encodePayload, RpcAction.flushZlib, RpcAction.writeConn,
   RpcAction.resetDeadline deadline, RpcAction.openZlibReader,
   RpcAction.decodeResponse]

/-- `New`: a client with the given settings (timeout defaulted when
unset), no connection, and zeroed counters. -/
def New (s : GoSettings) : GoClient :=
  let s' := if s.readWriteTimeout = 0
            then { s with readWriteTimeout := DefaultReadWriteTimeout }
            else s
  { settings := s', conn := none, serial := 0, classID := 0 }

/-- `Client.Close`: on a nil connection return `ErrAlreadyClosed`;
otherwise close the socket, clear the connection field, and return the
socket's close result.  The `Nat` component counts how many socket
`Close()` operations were attempted. -/
def GoClient.close (c : GoClient) : GoClient × Option GoError × Nat :=
  match c.conn with
  | none => (c, some GoError.alreadyClosed, 0)
  | some conn => ({ c with conn := none }, conn.closeErr.map GoError.ioError, 1)

/-- The value (and optional error) a Go wrapper method returns, or a
runtime crash (nil dereference / failed type assertion). -/
inductive WrapResult (α : Type) where
  | ret (a : α) (e : Option GoError)
  | crash
deriving DecidableEq, Repr

/-- The result handling of `Client.RemoveTorrent` (lines 399-407): a
transport error propagates with `false`; an error-classified response
yields `false` with an `RPCError`; otherwise `true` with no error,
whatever the payload holds. -/
def removeTorrentHandle (resp : Option DelugeResponse) (err : Option GoError) :
    WrapResult Bool :=
  match err with
  | some e => WrapResult.ret false (some e)
  | none =>
    match resp with
    | none => WrapResult.crash
    | some r =>
      if r.IsError then WrapResult.ret false (some (GoError.rpcErr r.toString))
      else WrapResult.ret true none

/-- `Client.RemoveTorrent`: build the argument list and call
`core.remove_torrent`, then handle the result. -/
def GoClient.RemoveTorrent (c : GoClient) (net : NetBehavior)
    (torrentID : String) (removeData : Bool) : GoClient × WrapResult Bool :=
  let o := c.rpc net "core.remove_torrent"
    [RValue.str torrentID, RValue.bool removeData] []
  (o.client, removeTorrentHandle o.resp o.err)

/-- `rencode.List.Get(i)`: the `i`-th element, or an error when out of
range. -/
def listGet (l : List RValue) (i : Nat) : Except GoError RValue :=
  match l.get? i with
  | some v => Except.ok v
  | none => Except.error (GoError.message "list index out of range")

/-- `mapToRencodeDictionary`: transcode an options map into a wire
dictionary. -/
def mapToRencodeDictionary (m : List (String × RValue)) : List (RValue × RValue) :=
  m.map (fun p => (RValue.str p.1, p.2))

/-- `sliceToRencodeList`: transcode a string slice into a wire list. -/
def sliceToRencodeList (s : List String) : List RValue :=
  s.map RValue.str

/-- The result handling of `Client.AddTorrentMagnet` (lines 337-353): a
transport error propagates with `""`; an error-classified response yields
`""` with an `RPCError`; otherwise take the first return value: a failed
`Get` propagates, the nil placeholder yields `("", nil)`, a byte string
yields its text, and any other value fails the `.([]uint8)` type
assertion (a Go runtime crash). -/
def addTorrentMagnetHandle (resp : Option DelugeResponse) (err : Option GoError) :
    WrapResult String :=
  match err with
  | some e => WrapResult.ret "" (some e)
  | none =>
    match resp with
    | none => WrapResult.crash
    | some r =>
      if r.IsError then WrapResult.ret "" (some (GoError.rpcErr r.toString))
      else
        match listGet r.returnValue 0 with
        | Except.error e => WrapResult.ret "" (some e)
        | Except.ok RValue.nil => WrapResult.ret "" none
        | Except.ok (RValue.bytes s) => WrapResult.ret s none
        | Except.ok _ => WrapResult.crash

/-- `Client.AddTorrentMagnet`: build the argument list and call
`core.add_torrent_magnet`, then handle the result. -/
def GoClient.AddTorrentMagnet (c : GoClient) (net : NetBehavior)
    (magnetURI : String) (options : List (String × RValue)) :
    GoClient × WrapResult String :=
  let o := c.rpc net "core.add_torrent_magnet"
    [RValue.str magnetURI, RValue.dict (mapToRencodeDictionary options)] []
  (o.client, addTorrentMagnetHandle o.resp o.err)

/-! ## Helper lemmas -/

/-- Unfolding lemma for the serial iterates. -/
theorem serialIter_succ (n : Nat) : serialIter (n + 1) = nextSerial (serialIter n) := rfl

/-- Below the wraparound point the serial counter after `n` calls is `n`. -/
theorem serialIter_id (n : Nat) (h : (n : Int) ≤ maxInt64 - 1) :
    serialIter n = (n : Int) := by
  induction n with
  | zero => rfl
  | succ k ih =>
    have hmax : ((k : Int) + 1) ≤ maxInt64 - 1 := by push_cast at h; omega
    have hk : (k : Int) ≤ maxInt64 - 1 := by omega
    rw [serialIter_succ, ih hk]
    unfold nextSerial
    have hne : (k : Int) + 1 ≠ maxInt64 := by unfold maxInt64 at hmax ⊢; omega
    rw [if_neg hne]
    push_cast
    ring

/-- After at least one call the serial counter stays within `[1, maxInt64 - 1]`. -/
theorem serialIter_range (n : Nat) (h : 1 ≤ n) :
    1 ≤ serialIter n ∧ serialIter n ≤ maxInt64 - 1 := by
  induction n with
  | zero => exact absurd h (by decide)
  | succ k ih =>
    rcases Nat.eq_zero_or_pos k with h0 | hk
    · subst h0
      rw [serialIter_succ]
      unfold serialIter nextSerial maxInt64
      norm_num
    · obtain ⟨h1, h2⟩ := ih hk
      rw [serialIter_succ]
      unfold nextSerial
      unfold maxInt64 at h2 ⊢
      split <;> omega

/-! ## Claims -/

/-- C3: each `Rpc` call advances the serial counter to the previous value
plus one, except that the incremented value `maxInt64` is replaced by 1;
consequently, starting from a fresh client, the serial of the n-th call is
`n` for every `n` up to `maxInt64 - 1` (so serials never repeat before
wraparound), the serial is never 0, and the call after serial
`maxInt64 - 1` wraps to 1. -/
theorem serial_counter_behaviour :
    (∀ (c : GoClient) (net : NetBehavior) (m : String) (a : List RValue)
        (k : List (RValue × RValue)),
      (GoClient.rpc c net m a k).client.serial
        = (if c.serial + 1 = maxInt64 then 1 else c.serial + 1))
    ∧ (∀ n : Nat, 1 ≤ n → (n : Int) ≤ maxInt64 - 1 → serialIter n = (n : Int))
    ∧ (∀ n : Nat, 1 ≤ n → serialIter n ≠ 0)
    ∧ serialIter 9223372036854775807 = 1 := by
  refine ⟨?_, ?_, ?_, ?_⟩
  · intro c net m a k
    rcases net with ⟨e1, e2, e3, e4, e5, e6, l, now⟩
    cases e1 <;> cases e2 <;> cases e3 <;> cases e4 <;> cases e5 <;> cases e6 <;> rfl
  · intro n _ h
    exact serialIter_id n h
  · intro n h
    have := (serialIter_range n h).1
    omega
  · have hprev : serialIter 9223372036854775806 = (9223372036854775806 : Int) :=
      serialIter_id _ (by unfold maxInt64; norm_num)
    have hstep : (9223372036854775807 : Nat) = 9223372036854775806 + 1 := by norm_num
    rw [hstep, serialIter_succ, hprev]
    unfold nextSerial maxInt64
    norm_num

/-- Witness for C3 at a concrete call count. -/
theorem serial_counter_behaviour_witness :
    serialIter 5 = (5 : Int) ∧ serialIter 5 ≠ 0 :=
  ⟨serial_counter_behaviour.2.1 5 (by norm_num) (by unfold maxInt64; norm_num),
   serial_counter_behaviour.2.2.1 5 (by norm_num)⟩

/-- C2: when the decoded envelope's echoed request id differs from the
serial just assigned, the response stage returns a nil response and the
correlation error, without classifying any payload. -/
theorem rpc_serial_mismatch (serial : Int) (l : List RValue) (mt reqID : Int)
    (hscan : scanTwoInts l = Except.ok (mt, reqID)) (hne : reqID ≠ serial) :
    rpcDecode serial l
      = (none, some (GoError.message "request/response serial id mismatch")) := by
  unfold rpcDecode
  rw [hscan]
  simp [hne]

/-- Witness for C2: serial 1 but echoed request id 5. -/
theorem rpc_serial_mismatch_witness :
    rpcDecode 1 [RValue.int 1, RValue.int 5]
      = (none, some (GoError.message "request/response serial id mismatch")) :=
  rpc_serial_mismatch 1 [RValue.int 1, RValue.int 5] 1 5 rfl (by decide)

/-- C4: a decoded envelope whose message type is neither 1 nor 2 yields a
nil response and an error: type 3 always gives the unsupported-event
failure regardless of the payload, and any other tag gives the
unknown-message-type failure. -/
theorem rpc_classify_unusual_types (serial : Int) (l : List RValue) (mt reqID : Int)
    (hscan : scanTwoInts l = Except.ok (mt, reqID)) (heq : reqID = serial) :
    (mt = 3 →
      rpcDecode serial l = (none, some (GoError.message "event support not available")))
    ∧ (mt ≠ 1 → mt ≠ 2 → mt ≠ 3 →
      rpcDecode serial l = (none, some (GoError.message "unknown message type"))) := by
  subst heq
  constructor
  · intro h3
    subst h3
    unfold rpcDecode
    rw [hscan]
    simp [rpcResponse, rpcError, rpcEvent]
  · intro h1 h2 h3
    unfold rpcDecode
    rw [hscan]
    simp [rpcResponse, rpcError, rpcEvent, h1, h2, h3]

/-- Witness for C4: an event envelope (type 3, arbitrary payload) and an
unknown tag 7. -/
theorem rpc_classify_unusual_types_witness :
    rpcDecode 1 [RValue.int 3, RValue.int 1, RValue.bool true]
      = (none, some (GoError.message "event support not available"))
    ∧ rpcDecode 1 [RValue.int 7, RValue.int 1]
      = (none, some (GoError.message "unknown message type")) :=
  ⟨(rpc_classify_unusual_types 1 [RValue.int 3, RValue.int 1, RValue.bool true]
      3 1 rfl rfl).1 rfl,
   (rpc_classify_unusual_types 1 [RValue.int 7, RValue.int 1]
      7 1 rfl rfl).2 (by decide) (by decide) (by decide)⟩

/-- C1 counterexample: for the envelope with message type 2 and payload
`("ValueError", "bad id", "traceX")`, the `RPCError` message surfaced to
the caller is `"RPC error ValueError('bad id')\ntraceX"` — it carries the
prefix `"RPC error "`, so it is not exactly the bare composite
`"ValueError('bad id')\ntraceX"` the claim requires. -/
theorem remote_error_message_cex :
    ((rpcDecode 1 [RValue.int 2, RValue.int 1,
        RValue.list [RValue.str "ValueError", RValue.str "bad id",
          RValue.str "traceX"]]).1.map
      (fun r => (RPCError.mk r.toString).error))
      = some ("RPC error " ++ "ValueError" ++ "(" ++ singleQuote ++ "bad id"
          ++ singleQuote ++ ")" ++ "\n" ++ "traceX")
    ∧ ((rpcDecode 1 [RValue.int 2, RValue.int 1,
        RValue.list [RValue.str "ValueError", RValue.str "bad id",
          RValue.str "traceX"]]).1.map
      (fun r => (RPCError.mk r.toString).error))
      ≠ some ("ValueError" ++ "(" ++ singleQuote ++ "bad id"
          ++ singleQuote ++ ")" ++ "\n" ++ "traceX") :=
  ⟨by decide, by decide⟩

/-- C1 amended: for every decoded envelope with message type 2 and error
payload `(t, m, tb)`, the remote-error message surfaced to the caller is
the composite `"RPC error <t>('<m>')\n<tb>"`, i.e. the claim's composite
preceded by the fixed prefix `"RPC error "`. -/
theorem remote_error_message (t m tb : String) (serial : Int) :
    ((rpcDecode serial [RValue.int 2, RValue.int serial,
        RValue.list [RValue.str t, RValue.str m, RValue.str tb]]).1.map
      (fun r => (RPCError.mk r.toString).error))
      = some ("RPC error " ++ t ++ "(" ++ singleQuote ++ m
          ++ singleQuote ++ ")" ++ "\n" ++ tb) := by
  simp [rpcDecode, scanTwoInts, scanList, scanThreeStrings, asText,
        DelugeResponse.toString, RPCError.error, rpcResponse, rpcError, rpcEvent]

/-- No decode path yields both a response and an error: the Go pair is
`(nil, err)` or `(&resp, nil)`. -/
theorem rpcDecode_exclusive (s : Int) (l : List RValue) :
    (rpcDecode s l).1 = none ∨ (rpcDecode s l).2 = none := by
  unfold rpcDecode
  split
  · simp
  · split
    · simp
    · split
      · simp
      · split
        · dsimp only
          split
          · simp
          · split <;> simp
        · split <;> simp

/-- The error response a well-formed type-2 envelope decodes to. -/
def errorResponse (id : Int) (t m tb : String) : DelugeResponse :=
  { messageType := rpcError, requestID := id, exceptionType := t,
    exceptionMessage := m, traceBack := tb }

/-- C5: `Rpc` never returns a partial result alongside an error — in every
outcome the response or the error is nil — and a well-formed remote
logical failure (message type 2) comes back as a non-nil response whose
`IsError` is true together with a nil error. -/
theorem rpc_no_partial_result :
    (∀ (c : GoClient) (net : NetBehavior) (m : String) (a : List RValue)
        (k : List (RValue × RValue)),
      (GoClient.rpc c net m a k).resp = none ∨ (GoClient.rpc c net m a k).err = none)
    ∧ (∀ (c : GoClient) (m : String) (a : List RValue) (k : List (RValue × RValue))
        (now : Int) (t msg tb : String),
      (GoClient.rpc c
        { respList := [RValue.int 2, RValue.int (nextSerial c.serial),
            RValue.list [RValue.str t, RValue.str msg, RValue.str tb]],
          now := now } m a k).resp
        = some (errorResponse (nextSerial c.serial) t msg tb)
      ∧ (errorResponse (nextSerial c.serial) t msg tb).IsError = true
      ∧ (GoClient.rpc c
        { respList := [RValue.int 2, RValue.int (nextSerial c.serial),
            RValue.list [RValue.str t, RValue.str msg, RValue.str tb]],
          now := now } m a k).err = none) := by
  constructor
  · intro c net m a k
    rcases net with ⟨e1, e2, e3, e4, e5, e6, l, now⟩
    cases e1 <;> cases e2 <;> cases e3 <;> cases e4 <;> cases e5 <;> cases e6 <;>
      first
        | exact Or.inl rfl
        | exact rpcDecode_exclusive (nextSerial c.serial) l
  · intro c m a k now t msg tb
    refine ⟨?_, rfl, ?_⟩ <;>
      simp [GoClient.rpc, rpcDecode, scanTwoInts, scanList, scanThreeStrings,
            asText, errorResponse, rpcResponse, rpcError, rpcEvent]

/-- A decoded success response whose payload carries the boolean `false`. -/
def respSuccessFalse : DelugeResponse :=
  { messageType := 1, requestID := 1, returnValue := [RValue.bool false] }

/-- C6 counterexample: a successful (non-error) `core.remove_torrent`
response whose payload carries the boolean `false` still makes
`RemoveTorrent` return `true`, so the boolean returned to the caller does
not equal the boolean carried in the payload. -/
theorem remove_torrent_ignores_payload_cex :
    rpcDecode 1 [RValue.int 1, RValue.int 1, RValue.bool false]
      = (some respSuccessFalse, none)
    ∧ respSuccessFalse.returnValue = [RValue.bool false]
    ∧ removeTorrentHandle (some respSuccessFalse) none = WrapResult.ret true none
    ∧ WrapResult.ret true (none : Option GoError) ≠ WrapResult.ret false none :=
  ⟨rfl, rfl, rfl, by simp⟩

/-- C6 amended: for every `RemoveTorrent` call whose RPC response is
successful (not error-classified), the boolean returned to the caller is
the constant `true`, regardless of the payload carried in the daemon's
response. -/
theorem remove_torrent_true_on_success (c : GoClient) (l : List RValue) (now : Int)
    (tid : String) (rd : Bool) (r : DelugeResponse)
    (hdec : rpcDecode (nextSerial c.serial) l = (some r, none))
    (herr : r.IsError = false) :
    (GoClient.RemoveTorrent c { respList := l, now := now } tid rd).2
      = WrapResult.ret true none := by
  simp [GoClient.RemoveTorrent, GoClient.rpc, hdec, removeTorrentHandle, herr]

/-- Witness for the amended C6 at a concrete successful response. -/
theorem remove_torrent_true_on_success_witness :
    (GoClient.RemoveTorrent (New {})
        { respList := [RValue.int 1, RValue.int 1, RValue.bool true] }
        "deadbeef" true).2 = WrapResult.ret true none :=
  remove_torrent_true_on_success (New {})
    [RValue.int 1, RValue.int 1, RValue.bool true] 0 "deadbeef" true
    { messageType := 1, requestID := 1, returnValue := [RValue.bool true] } rfl rfl

/-- C7 counterexample: in a fully successful call on a fresh client
(default 30 s timeout), the deadline reset does not precede the socket
write — the write is the third I/O step and the reset the fourth. -/
theorem deadline_reset_before_write_cex :
    RpcAction.writeConn
      ∈ ((New {}).rpc { respList := [RValue.int 1, RValue.int 1] } "m" [] []).trace
    ∧ RpcAction.resetDeadline 30000000000
      ∈ ((New {}).rpc { respList := [RValue.int 1, RValue.int 1] } "m" [] []).trace
    ∧ ¬ (((New {}).rpc { respList := [RValue.int 1, RValue.int 1] } "m" [] []).trace.indexOf
          (RpcAction.resetDeadline 30000000000)
        < ((New {}).rpc { respList := [RValue.int 1, RValue.int 1] } "m" [] []).trace.indexOf
          RpcAction.writeConn) := by
  decide

/-- C7 amended: every call's I/O trace is a prefix of
encode, flush, write, reset-deadline(now + configured timeout),
open-reader, decode — so the per-call deadline reset to "now + timeout"
happens after the encoded request is written and before the response is
read, covering the receive (not the send) with the fresh window. -/
theorem deadline_reset_after_write (c : GoClient) (net : NetBehavior) (m : String)
    (a : List RValue) (k : List (RValue × RValue)) :
    ∃ n, (GoClient.rpc c net m a k).trace
      = (fullRpcTrace (c.resetTimeout net.now)).take n := by
  rcases net with ⟨e1, e2, e3, e4, e5, e6, l, now⟩
  cases e1 with
  | some e => exact ⟨1, rfl⟩
  | none =>
    cases e2 with
    | some e => exact ⟨2, rfl⟩
    | none =>
      cases e3 with
      | some e => exact ⟨3, rfl⟩
      | none =>
        cases e4 with
        | some e => exact ⟨4, rfl⟩
        | none =>
          cases e5 with
          | some e => exact ⟨5, rfl⟩
          | none =>
            cases e6 with
            | some e => exact ⟨6, rfl⟩
            | none => exact ⟨6, rfl⟩

/-- C8: an `AddTorrentMagnet` call whose RPC response is successful and
whose first return value is the daemon's nil placeholder returns the empty
string with no error. -/
theorem add_torrent_magnet_nil_hash (c : GoClient) (l : List RValue) (now : Int)
    (uri : String) (opts : List (String × RValue)) (r : DelugeResponse)
    (hdec : rpcDecode (nextSerial c.serial) l = (some r, none))
    (herr : r.IsError = false)
    (hnil : listGet r.returnValue 0 = Except.ok RValue.nil) :
    (GoClient.AddTorrentMagnet c { respList := l, now := now } uri opts).2
      = WrapResult.ret "" none := by
  simp [GoClient.AddTorrentMagnet, GoClient.rpc, hdec, addTorrentMagnetHandle,
        herr, hnil]

/-- Witness for C8: a successful response whose only return value is nil. -/
theorem add_torrent_magnet_nil_hash_witness :
    (GoClient.AddTorrentMagnet (New {})
        { respList := [RValue.int 1, RValue.int 1, RValue.nil] }
        "magnet:?xt=urn:btih:0" []).2 = WrapResult.ret "" none :=
  add_torrent_magnet_nil_hash (New {})
    [RValue.int 1, RValue.int 1, RValue.nil] 0 "magnet:?xt=urn:btih:0" []
    { messageType := 1, requestID := 1, returnValue := [RValue.nil] } rfl rfl rfl

/-- C9: closing a connected client twice: the first `Close` performs one
socket close and returns the socket's result; the second returns
`ErrAlreadyClosed` with no further socket close (and, the model being
total, no panic). -/
theorem close_twice (c : GoClient) (conn : GoConn) (h : c.conn = some conn) :
    (GoClient.close c).2.1 = conn.closeErr.map GoError.ioError
    ∧ (GoClient.close c).2.2 = 1
    ∧ (GoClient.close (GoClient.close c).1).2.1 = some GoError.alreadyClosed
    ∧ (GoClient.close (GoClient.close c).1).2.2 = 0 := by
  simp [GoClient.close, h]

/-- Witness for C9: a client whose socket close reports an I/O error. -/
theorem close_twice_witness :
    (GoClient.close { conn := some { closeErr := some "boom" } }).2.1
        = some (GoError.ioError "boom")
    ∧ (GoClient.close
        (GoClient.close { conn := some { closeErr := some "boom" } }).1).2.1
        = some GoError.alreadyClosed :=
  ⟨(close_twice { conn := some { closeErr := some "boom" } }
      { closeErr := some "boom" } rfl).1,
   (close_twice { conn := some { closeErr := some "boom" } }
      { closeErr := some "boom" } rfl).2.2.1⟩

/-- C10: `Close` returns `ErrAlreadyClosed` exactly when the connection
field is nil; a freshly created client's connection field is nil; and
after any `Close` the connection field is nil (even when the socket close
reported an error). -/
theorem close_already_closed_iff :
    (∀ c : GoClient,
      (GoClient.close c).2.1 = some GoError.alreadyClosed ↔ c.conn = none)
    ∧ (∀ s : GoSettings, (New s).conn = none)
    ∧ (∀ c : GoClient, (GoClient.close c).1.conn = none) := by
  refine ⟨fun c => ?_, fun s => rfl, fun c => ?_⟩
  · cases h : c.conn with
    | none => simp [GoClient.close, h]
    | some cn =>
      simp only [GoClient.close, h]
      cases hc : cn.closeErr <;> simp [hc, h]
  · cases h : c.conn with
    | none => simp [GoClient.close, h]
    | some cn => simp [GoClient.close, h]

/-- Witness for C10: a fresh client's `Close` reports `ErrAlreadyClosed`. -/
theorem close_already_closed_iff_witness :
    (GoClient.close (New {})).2.1 = some GoError.alreadyClosed :=
  (close_already_closed_iff.1 (New {})).mpr rfl
